import Mathlib

/-!
Shallow embedding of the Customify Spotify-integration core
(`spotify.py`, `spotify_api.py`, the recommendation orchestration in
`app.py`), together with theorems settling the specification claims.

The Flask session is modelled as an explicit record of the keys the code
reads and writes; each HTTP exchange is modelled by a response value (or
`Option` of one, `none` standing for a transport exception) supplied by an
environment, and every operation additionally reports how many network
calls of the relevant kind it performed, so that "performs zero network
calls" claims can be stated.
-/

/-- A track object; identity is the `id` field (the only field the
verified claims inspect). -/
structure Track where
  id : String
deriving DecidableEq, Repr

/-- The per-user Flask session, restricted to the keys the embedded code
touches.  `none` models the key being absent from the session dict. -/
structure Session where
  spotify_token : Option String
  spotify_refresh_token : Option String
  spotify_token_expires_in : Option Nat
  cached_top_tracks : Option (List Track)
  cached_top_tracks_time : Option Nat
  recommended_tracks : Option (List String)
deriving DecidableEq, Repr

/-- The JSON body of a token-endpoint response, with its HTTP status. -/
structure RefreshResp where
  status : Nat
  access_token : String
  expires_in : Nat
  refresh_token : Option String
deriving DecidableEq, Repr

namespace spotify

/-- `spotify.py::clear_spotify_tokens`: pops the three token keys. -/
def clear_spotify_tokens (s : Session) : Session :=
  { s with spotify_token := none, spotify_refresh_token := none,
           spotify_token_expires_in := none }

/-- `spotify.py::is_token_expired`: `expires_at and time.time() > expires_at`
(a falsy `expires_at`, i.e. absent or zero, counts as not expired). -/
def is_token_expired (now : Nat) (s : Session) : Bool :=
  match s.spotify_token_expires_in with
  | none => false
  | some e => decide (e ≠ 0) && decide (now > e)

/-- Result of `spotify.py::refresh_spotify_token`: `redirect` is the (truthy)
redirect response returned when no refresh token is held, `ok`/`failed` are
the boolean returns. -/
inductive RefreshResult where
  | redirect
  | ok
  | failed
deriving DecidableEq, Repr

/-- `spotify.py::refresh_spotify_token`.  Returns the function result, the
session after the call, and the number of token-endpoint POSTs made. -/
def refresh_spotify_token (now : Nat) (resp : RefreshResp) (s : Session) :
    RefreshResult × Session × Nat :=
  match s.spotify_refresh_token with
  | none => (.redirect, clear_spotify_tokens s, 0)
  | some _ =>
    if resp.status ≠ 200 then
      (.failed, clear_spotify_tokens s, 1)
    else
      (.ok, { s with spotify_token := some resp.access_token,
                     spotify_token_expires_in := some (now + resp.expires_in) }, 1)

/-- `session.get('spotify_token')` interpolated into the Bearer header
(`f"Bearer {...}"` renders an absent key as the string `None`). -/
def bearer_of (t : Option String) : String :=
  match t with
  | some tok => "Bearer " ++ tok
  | none => "Bearer None"

/-- `spotify.py::get_headers`.  Returns the produced Authorization header
(`none` = the Python `None` return), the session after the call, and the
number of token-endpoint POSTs made. -/
def get_headers (now : Nat) (resp : RefreshResp) (s : Session) :
    Option String × Session × Nat :=
  match s.spotify_token with
  | none => (none, s, 0)
  | some _ =>
    if is_token_expired now s then
      match refresh_spotify_token now resp s with
      | (.failed, s1, n) => (none, clear_spotify_tokens s1, n)
      | (_, s1, n) => (some (bearer_of s1.spotify_token), s1, n)
    else
      (some (bearer_of s.spotify_token), s, 0)

end spotify

namespace spotify_api

/-- Error values raised by `spotify_api.py` (via `errors.py`). -/
inductive Err where
  | auth
  | spotify (status : Nat)
  | network
  | data
deriving DecidableEq, Repr

/-- `spotify_api.py::refresh_spotify_token`.  `resp = none` models a
transport exception from `requests.post`.  Returns the outcome (`.ok true`
or a raised error), the session after the call, and the number of
token-endpoint POSTs made.  Note: no session key is cleared on failure and
a rotated refresh token in the response body is ignored. -/
def refresh_spotify_token (now : Nat) (resp : Option RefreshResp) (s : Session) :
    Except Err Bool × Session × Nat :=
  match s.spotify_refresh_token with
  | none => (.error .auth, s, 0)
  | some _ =>
    match resp with
    | none => (.error .network, s, 1)
    | some r =>
      if r.status ≠ 200 then
        (.error (.spotify r.status), s, 1)
      else
        (.ok true, { s with spotify_token := some r.access_token,
                            spotify_token_expires_in := some (now + r.expires_in) }, 1)

/-- `spotify_api.py::get_headers`.  The expiry check is
`'spotify_token_expires_in' in session and time.time() > session[...]`;
on a non-200 refresh the code pops `spotify_token` and
`spotify_token_expires_in` (but not the refresh token) and returns None;
on 200 it stores the new access token and expiry and, only if the body
carries one, the rotated refresh token.  `resp = none` models an exception
during the request.  Returns the header, the session after the call, and
the number of token-endpoint POSTs made. -/
def get_headers (now : Nat) (resp : Option RefreshResp) (s : Session) :
    Option String × Session × Nat :=
  match s.spotify_token with
  | none => (none, s, 0)
  | some tok =>
    let expired : Bool :=
      match s.spotify_token_expires_in with
      | none => false
      | some e => decide (now > e)
    if expired then
      match s.spotify_refresh_token with
      | none => (none, s, 0)
      | some _ =>
        match resp with
        | none => (none, s, 1)
        | some r =>
          if r.status ≠ 200 then
            (none, { s with spotify_token := none,
                            spotify_token_expires_in := none }, 1)
          else
            let s2 : Session :=
              { s with spotify_token := some r.access_token,
                       spotify_token_expires_in := some (now + r.expires_in),
                       spotify_refresh_token :=
                         match r.refresh_token with
                         | some nrt => some nrt
                         | none => s.spotify_refresh_token }
            (some ("Bearer " ++ r.access_token), s2, 1)
    else
      (some ("Bearer " ++ tok), s, 0)

end spotify_api

/-- A session holding an expired access token and a refresh token, used as
the concrete state in counterexamples. -/
def sessExpired : Session :=
  { spotify_token := some "OLDTOK", spotify_refresh_token := some "REFTOK",
    spotify_token_expires_in := some 5, cached_top_tracks := none,
    cached_top_tracks_time := none, recommended_tracks := none }

/-- A 400 token-endpoint response. -/
def resp400 : RefreshResp :=
  { status := 400, access_token := "", expires_in := 0, refresh_token := none }

/-- A 200 token-endpoint response that rotates the refresh token. -/
def resp200rot : RefreshResp :=
  { status := 200, access_token := "NEWTOK", expires_in := 3600,
    refresh_token := some "NEWREF" }

/-- A 200 token-endpoint response without a rotated refresh token. -/
def resp200 : RefreshResp :=
  { status := 200, access_token := "NEWTOK", expires_in := 3600,
    refresh_token := none }

/-- C1 counterexample: with an expired access token and a refresh token in
the session, a 400 refresh response makes `spotify_api.get_headers` fail
after exactly one refresh attempt, but the refresh token survives in the
session — the entire TokenState is not cleared, contradicting the claim. -/
theorem c1_refresh_token_not_cleared :
    (spotify_api.get_headers 10 (some resp400) sessExpired).1 = none ∧
    (spotify_api.get_headers 10 (some resp400) sessExpired).2.1.spotify_token = none ∧
    (spotify_api.get_headers 10 (some resp400) sessExpired).2.1.spotify_refresh_token
      = some "REFTOK" := by
  decide

/-- C1 (amended): on a non-2xx refresh response with an expired access
token and a held refresh token, each of the three refresh sites makes
exactly one token-endpoint call and fails, but what is cleared differs:
`spotify_api.get_headers` clears only the access token and expiry,
retaining the refresh token; `spotify.get_headers` via
`spotify.refresh_spotify_token` clears all of TokenState; and
`spotify_api.refresh_spotify_token` raises without clearing anything. -/
theorem c1_refresh_rejected_clearing (now e : Nat) (tok rt : String)
    (r : RefreshResp) (s : Session)
    (htok : s.spotify_token = some tok)
    (hexp : s.spotify_token_expires_in = some e)
    (hz : 0 < e) (hlt : e < now)
    (hrt : s.spotify_refresh_token = some rt)
    (hst : r.status ≠ 200) :
    spotify_api.get_headers now (some r) s =
      (none, { s with spotify_token := none,
                      spotify_token_expires_in := none }, 1) ∧
    spotify.get_headers now r s =
      (none, spotify.clear_spotify_tokens s, 1) ∧
    spotify_api.refresh_spotify_token now (some r) s =
      (.error (.spotify r.status), s, 1) := by
  refine ⟨?_, ?_, ?_⟩
  · simp [spotify_api.get_headers, htok, hexp, hrt, hst, hlt]
  · simp [spotify.get_headers, spotify.is_token_expired,
      spotify.refresh_spotify_token, spotify.clear_spotify_tokens,
      htok, hexp, hrt, hst, hlt, hz.ne']
  · simp [spotify_api.refresh_spotify_token, hrt, hst]

/-- C1 witness: the amended behavior at a concrete expired session and a
concrete 400 response. -/
theorem c1_refresh_rejected_clearing_witness :
    spotify_api.get_headers 10 (some resp400) sessExpired =
      (none, { sessExpired with spotify_token := none,
                                spotify_token_expires_in := none }, 1) ∧
    spotify.get_headers 10 resp400 sessExpired =
      (none, spotify.clear_spotify_tokens sessExpired, 1) ∧
    spotify_api.refresh_spotify_token 10 (some resp400) sessExpired =
      (.error (.spotify 400), sessExpired, 1) :=
  c1_refresh_rejected_clearing 10 5 "OLDTOK" "REFTOK" resp400 sessExpired
    rfl rfl (by decide) (by decide) rfl (by decide)

/-- C2: when no access token is stored in the session, both
header-producing operations return the failure value `None`, perform zero
network calls, and leave the session unchanged. -/
theorem c2_no_token_no_network (now : Nat) (resp : Option RefreshResp)
    (r : RefreshResp) (s : Session)
    (htok : s.spotify_token = none) :
    spotify_api.get_headers now resp s = (none, s, 0) ∧
    spotify.get_headers now r s = (none, s, 0) := by
  constructor
  · simp [spotify_api.get_headers, htok]
  · simp [spotify.get_headers, htok]

/-- An entirely empty session. -/
def sessEmpty : Session :=
  { spotify_token := none, spotify_refresh_token := none,
    spotify_token_expires_in := none, cached_top_tracks := none,
    cached_top_tracks_time := none, recommended_tracks := none }

/-- C2 witness: the no-token behavior at the empty session. -/
theorem c2_no_token_no_network_witness :
    spotify_api.get_headers 10 (some resp400) sessEmpty = (none, sessEmpty, 0) ∧
    spotify.get_headers 10 resp400 sessEmpty = (none, sessEmpty, 0) :=
  c2_no_token_no_network 10 (some resp400) resp400 sessEmpty rfl

/-- C6 counterexample: a 2xx refresh exchange whose body rotates the
refresh token (`NEWREF`), processed by `spotify_api.refresh_spotify_token`
over a session holding refresh token `REFTOK`: the exchange succeeds and
installs the new access token, yet the stored refresh token remains the
old `REFTOK` — the rotated token is not stored, contradicting the claim. -/
theorem c6_rotation_ignored_cex :
    (spotify_api.refresh_spotify_token 100 (some resp200rot) sessExpired).1
      = .ok true ∧
    (spotify_api.refresh_spotify_token 100 (some resp200rot) sessExpired).2.1.spotify_token
      = some "NEWTOK" ∧
    (spotify_api.refresh_spotify_token 100 (some resp200rot) sessExpired).2.1.spotify_refresh_token
      = some "REFTOK" :=
  ⟨rfl, rfl, rfl⟩

/-- C6 (amended): on a 2xx refresh response all three refresh sites
replace the access token and set the expiry to now plus the returned
lifetime, but only the inline refresh in `spotify_api.get_headers` applies
refresh-token rotation (storing a returned refresh token and otherwise
retaining the prior one); both `refresh_spotify_token` functions always
retain the prior refresh token, ignoring a returned one. -/
theorem c6_refresh_success_update (now e : Nat) (tok rt : String)
    (r : RefreshResp) (s : Session)
    (htok : s.spotify_token = some tok)
    (hexp : s.spotify_token_expires_in = some e)
    (hz : 0 < e) (hlt : e < now)
    (hrt : s.spotify_refresh_token = some rt)
    (hst : r.status = 200) :
    spotify_api.get_headers now (some r) s =
      (some ("Bearer " ++ r.access_token),
       { s with spotify_token := some r.access_token,
                spotify_token_expires_in := some (now + r.expires_in),
                spotify_refresh_token :=
                  match r.refresh_token with
                  | some nrt => some nrt
                  | none => s.spotify_refresh_token }, 1) ∧
    spotify_api.refresh_spotify_token now (some r) s =
      (.ok true, { s with spotify_token := some r.access_token,
                          spotify_token_expires_in := some (now + r.expires_in) }, 1) ∧
    spotify.refresh_spotify_token now r s =
      (.ok, { s with spotify_token := some r.access_token,
                     spotify_token_expires_in := some (now + r.expires_in) }, 1) := by
  refine ⟨?_, ?_, ?_⟩
  · simp [spotify_api.get_headers, htok, hexp, hrt, hst, hlt]
  · simp [spotify_api.refresh_spotify_token, hrt, hst]
  · simp [spotify.refresh_spotify_token, hrt, hst]

/-- C6 witness: the amended behavior at a concrete expired session and a
concrete rotating 200 response (the inline site stores `NEWREF`, the
standalone sites keep `REFTOK`). -/
theorem c6_refresh_success_update_witness :
    spotify_api.get_headers 100 (some resp200rot) sessExpired =
      (some "Bearer NEWTOK",
       { sessExpired with spotify_token := some "NEWTOK",
                          spotify_token_expires_in := some 3700,
                          spotify_refresh_token := some "NEWREF" }, 1) ∧
    spotify_api.refresh_spotify_token 100 (some resp200rot) sessExpired =
      (.ok true, { sessExpired with spotify_token := some "NEWTOK",
                                    spotify_token_expires_in := some 3700 }, 1) ∧
    spotify.refresh_spotify_token 100 resp200rot sessExpired =
      (.ok, { sessExpired with spotify_token := some "NEWTOK",
                               spotify_token_expires_in := some 3700 }, 1) :=
  c6_refresh_success_update 100 5 "OLDTOK" "REFTOK" resp200rot sessExpired
    rfl rfl (by decide) (by decide) rfl rfl

namespace spotify_api

/-- The environment of `spotify_api.py::get_recommendations`: the
responses of the Spotify endpoints it queries (`none` = non-200 response,
in which case the code skips or aborts), `random.choice` over a non-empty
album track list, and `random.sample(pool, 10)` used when the candidate
pool exceeds 10. -/
structure RecEnv where
  trackArtist : String → Option String
  artistAlbums : String → Option (List String)
  albumTracks : String → Option (List String)
  choice : List String → String
  sample10 : List String → List String
  tracksBatch : List String → Option (List Track)

/-- The seed loop of `get_recommendations`: for each seed track id, fetch
the track (skip on failure), take its first artist, skip already-processed
artists, fetch the artist's albums (artist is recorded as processed even
if this fails), and for each album with a non-empty track list append one
randomly chosen track id to the accumulator. -/
def collect_candidates (env : RecEnv) :
    List String → List String → List String → List String
  | [], _, acc => acc
  | t :: rest, processed_artists, acc =>
    match env.trackArtist t with
    | none => collect_candidates env rest processed_artists acc
    | some artist =>
      if artist ∈ processed_artists then
        collect_candidates env rest processed_artists acc
      else
        match env.artistAlbums artist with
        | none => collect_candidates env rest (artist :: processed_artists) acc
        | some albums =>
          collect_candidates env rest (artist :: processed_artists)
            (albums.foldl (fun ac alb =>
              match env.albumTracks alb with
              | some ts => if ts = [] then ac else ac ++ [env.choice ts]
              | none => ac) acc)

/-- `all_track_ids` after the seed loop and the
`[tid for tid in all_track_ids if tid not in track_ids]` filter. -/
def candidate_pool (env : RecEnv) (track_ids : List String) : List String :=
  (collect_candidates env track_ids [] []).filter
    (fun tid => decide (tid ∉ track_ids))

/-- `selected_track_ids`: `random.sample(pool, 10)` when the pool has more
than 10 ids, the whole pool otherwise. -/
def selected_track_ids (env : RecEnv) (track_ids : List String) : List String :=
  if (candidate_pool env track_ids).length > 10 then
    env.sample10 (candidate_pool env track_ids)
  else
    candidate_pool env track_ids

/-- `spotify_api.py::get_recommendations`.  `headers` is the result of the
initial `get_headers()` call (`none` makes the function return `[]`); on a
non-200 batched `/tracks` fetch it returns `[]` without touching the
session; on success it returns the fetched tracks and stores their ids
under `recommended_tracks`. -/
def get_recommendations (env : RecEnv) (headers : Option String)
    (track_ids : List String) (s : Session) : List Track × Session :=
  match headers with
  | none => ([], s)
  | some _ =>
    match env.tracksBatch (selected_track_ids env track_ids) with
    | none => ([], s)
    | some tracks =>
      (tracks, { s with recommended_tracks := some (tracks.map Track.id) })

end spotify_api

/-- An environment in which the single seed's artist has two albums that
both contribute the same track id `x`. -/
def envDup : spotify_api.RecEnv :=
  { trackArtist := fun t => if t = "s" then some "a" else none
  , artistAlbums := fun a => if a = "a" then some ["al1", "al2"] else none
  , albumTracks := fun _ => some ["x"]
  , choice := fun ts => ts.headD ""
  , sample10 := fun l => l.take 10
  , tracksBatch := fun ids => some (ids.map Track.mk) }

/-- C3 counterexample: with seed `s` and an artist whose two albums both
yield track `x`, `get_recommendations` returns two tracks with the same id
`x` — the result is not deduplicated by id, contradicting the claim. -/
theorem c3_duplicate_ids_cex :
    ((spotify_api.get_recommendations envDup (some "H") ["s"] sessEmpty).1.map Track.id
      = ["x", "x"]) ∧
    ¬ ((spotify_api.get_recommendations envDup (some "H") ["s"] sessEmpty).1.map
        Track.id).Nodup := by
  constructor
  · rfl
  · decide

/-- Every id in the candidate pool survives the
`tid not in track_ids` filter, hence is not a seed id. -/
lemma mem_candidate_pool_not_seed (env : spotify_api.RecEnv)
    (track_ids : List String) (x : String)
    (hx : x ∈ spotify_api.candidate_pool env track_ids) : x ∉ track_ids := by
  unfold spotify_api.candidate_pool at hx
  exact of_decide_eq_true (List.mem_filter.mp hx).2

/-- C3 (amended): assuming `random.sample`'s contract (on a pool longer
than 10 it returns 10 elements of the pool) and the batched `/tracks`
endpoint's contract (it returns tracks whose ids are exactly the requested
ids), `get_recommendations` returns at most 10 tracks and never returns a
track whose id is in the input seed list; the returned list is however not
deduplicated by id (dedup happens one layer up, in the caller). -/
theorem c3_no_seed_at_most_ten (env : spotify_api.RecEnv) (h : Option String)
    (track_ids : List String) (s : Session)
    (hSample : ∀ l : List String, 10 < l.length →
      (env.sample10 l).length = 10 ∧ ∀ x ∈ env.sample10 l, x ∈ l)
    (hBatch : ∀ ids tks, env.tracksBatch ids = some tks →
      tks.map Track.id = ids) :
    (spotify_api.get_recommendations env h track_ids s).1.length ≤ 10 ∧
    ∀ t ∈ (spotify_api.get_recommendations env h track_ids s).1,
      t.id ∉ track_ids := by
  have hsel_len : (spotify_api.selected_track_ids env track_ids).length ≤ 10 := by
    unfold spotify_api.selected_track_ids
    split
    · exact le_of_eq (hSample _ (by assumption)).1
    · omega
  have hsel_mem : ∀ x ∈ spotify_api.selected_track_ids env track_ids,
      x ∉ track_ids := by
    intro x hx
    unfold spotify_api.selected_track_ids at hx
    split at hx
    · exact mem_candidate_pool_not_seed env track_ids x
        ((hSample _ (by assumption)).2 x hx)
    · exact mem_candidate_pool_not_seed env track_ids x hx
  unfold spotify_api.get_recommendations
  match h with
  | none => exact ⟨by simp, by simp⟩
  | some hdr =>
    cases hb : env.tracksBatch (spotify_api.selected_track_ids env track_ids) with
    | none => exact ⟨by simp, by simp⟩
    | some tks =>
      have hids := hBatch _ _ hb
      refine ⟨?_, ?_⟩
      · simpa [← hids] using hsel_len
      · intro t ht
        exact hsel_mem t.id (hids ▸ List.mem_map_of_mem Track.id ht)

/-- C3 witness: the amended bound at the concrete duplicate-producing
environment (the two `x`-tracks are not seeds and there are at most 10). -/
theorem c3_no_seed_at_most_ten_witness :
    (spotify_api.get_recommendations envDup (some "H") ["s"] sessEmpty).1.length ≤ 10 ∧
    ∀ t ∈ (spotify_api.get_recommendations envDup (some "H") ["s"] sessEmpty).1,
      t.id ∉ ["s"] :=
  c3_no_seed_at_most_ten envDup (some "H") ["s"] sessEmpty
    (fun l hl => by
      constructor
      · show (l.take 10).length = 10
        rw [List.length_take]
        omega
      · intro x hx
        exact List.mem_of_mem_take hx)
    (fun ids tks htk => by
      have h2 : tks = ids.map Track.mk := by
        have h3 : some (ids.map Track.mk) = some tks := htk
        exact (Option.some.inj h3).symm
      subst h2
      rw [List.map_map]
      exact List.map_id ids)

/-- C9: whenever the final batched `/tracks` fetch fails (non-200),
`get_recommendations` returns the empty list and the session — in
particular its `recommended_tracks` key — is left exactly as it was; the
key is only ever written on the success path. -/
theorem c9_session_unchanged_on_batch_failure (env : spotify_api.RecEnv)
    (h : Option String) (track_ids : List String) (s : Session)
    (hfail : env.tracksBatch (spotify_api.selected_track_ids env track_ids) = none) :
    spotify_api.get_recommendations env h track_ids s = ([], s) := by
  unfold spotify_api.get_recommendations
  match h with
  | none => rfl
  | some hdr => rw [hfail]

/-- An environment whose final batched `/tracks` fetch always fails. -/
def envBatchFail : spotify_api.RecEnv :=
  { envDup with tracksBatch := fun _ => none }

/-- C9 witness: at a concrete session already holding a previous
`recommended_tracks` value, a failing batch fetch leaves it intact. -/
theorem c9_session_unchanged_on_batch_failure_witness :
    spotify_api.get_recommendations envBatchFail (some "H") ["s"]
      { sessEmpty with recommended_tracks := some ["old1", "old2"] } =
      ([], { sessEmpty with recommended_tracks := some ["old1", "old2"] }) :=
  c9_session_unchanged_on_batch_failure envBatchFail (some "H") ["s"]
    { sessEmpty with recommended_tracks := some ["old1", "old2"] } rfl

/-- An environment in which every seed contributes one distinct candidate
track, making each seed's contribution visible in the output. -/
def envFour : spotify_api.RecEnv :=
  { trackArtist := fun t => some ("artist_" ++ t)
  , artistAlbums := fun a => some ["album_" ++ a]
  , albumTracks := fun alb => some ["x_" ++ alb]
  , choice := fun ts => ts.headD ""
  , sample10 := fun l => l.take 10
  , tracksBatch := fun ids => some (ids.map Track.mk) }

/-- C4 counterexample: given four seed ids, `get_recommendations` fetches
and expands all four — the output contains a track derived from the fourth
seed, and differs from the output on the first three seeds only, so the
engine does not cap the seed list to 3. -/
theorem c4_engine_processes_fourth_seed :
    ((spotify_api.get_recommendations envFour (some "H") ["a", "b", "c", "d"]
        sessEmpty).1.map Track.id
      = ["x_album_artist_a", "x_album_artist_b", "x_album_artist_c",
         "x_album_artist_d"]) ∧
    (spotify_api.get_recommendations envFour (some "H") ["a", "b", "c", "d"]
        sessEmpty).1 ≠
      (spotify_api.get_recommendations envFour (some "H")
        (["a", "b", "c", "d"].take 3) sessEmpty).1 := by
  constructor
  · rfl
  · decide

/-- `app.py::get_recommendations_api`:
`seed_tracks = track_ids[:3] if len(track_ids) >= 3 else track_ids`. -/
def seed_tracks_of (track_ids : List String) : List String :=
  if track_ids.length ≥ 3 then track_ids.take 3 else track_ids

/-- C4 (amended): the engine itself processes every supplied seed id; the
cap to the first 3 seeds is applied by the caller in `app.py`, whose
`seed_tracks` computation always equals taking the first 3 ids. -/
theorem c4_caller_caps_to_three (track_ids : List String) :
    seed_tracks_of track_ids = track_ids.take 3 := by
  unfold seed_tracks_of
  split
  · rfl
  · rw [List.take_of_length_le]
    omega

namespace spotify_api

/-- `spotify_api.py::get_top_tracks`: the valid `time_range` values. -/
def valid_time_ranges : List String := ["short_term", "medium_term", "long_term"]

/-- The `time_range` validation in `get_top_tracks`: values outside the
valid set are replaced by `"short_term"` (despite the log message saying
`medium_term`). -/
def normalize_time_range (time_range : String) : String :=
  if time_range ∈ valid_time_ranges then time_range else "short_term"

/-- The query parameters `get_top_tracks` sends:
`{"limit": min(limit, 50), "time_range": <validated time_range>}`. -/
def top_tracks_params (limit : Int) (time_range : String) : Int × String :=
  (min limit 50, normalize_time_range time_range)

end spotify_api

/-- C7: a `time_range` outside the valid set is sent as `short_term` (not
`medium_term`), a valid `time_range` is passed through unchanged, and the
`limit` parameter sent never exceeds 50. -/
theorem c7_time_range_fallback_and_limit (limit : Int) (time_range : String) :
    (time_range ∉ spotify_api.valid_time_ranges →
      (spotify_api.top_tracks_params limit time_range).2 = "short_term") ∧
    (time_range ∈ spotify_api.valid_time_ranges →
      (spotify_api.top_tracks_params limit time_range).2 = time_range) ∧
    (spotify_api.top_tracks_params limit time_range).1 ≤ 50 := by
  refine ⟨?_, ?_, ?_⟩
  · intro hmem
    simp [spotify_api.top_tracks_params, spotify_api.normalize_time_range, hmem]
  · intro hmem
    simp [spotify_api.top_tracks_params, spotify_api.normalize_time_range, hmem]
  · exact min_le_right limit 50

/-- C7 witness: an invalid value falls back to `short_term`, a valid one
passes through, and a limit of 99 is capped under 50. -/
theorem c7_time_range_fallback_and_limit_witness :
    (spotify_api.top_tracks_params 99 "bogus").2 = "short_term" ∧
    (spotify_api.top_tracks_params 99 "medium_term").2 = "medium_term" ∧
    (spotify_api.top_tracks_params 99 "bogus").1 ≤ 50 :=
  ⟨(c7_time_range_fallback_and_limit 99 "bogus").1 (by decide),
   (c7_time_range_fallback_and_limit 99 "medium_term").2.1 (by decide),
   (c7_time_range_fallback_and_limit 99 "bogus").2.2⟩

namespace spotify_api

/-- The environment of `create_playlist_with_tracks`: the `get_headers`
result, the `id` of the profile returned by `get_current_user` (`none`
when the profile fetch fails or carries no id), the status of the
playlist-creation POST, and the status of the add-tracks POST as a
function of the posted uris. -/
structure PlaylistEnv where
  headers : Option String
  user_id : Option String
  create_status : Nat
  add_status : List String → Nat

/-- The network calls `create_playlist_with_tracks` can issue, in order:
the `/me` profile fetch, the playlist-creation POST, the add-tracks POST. -/
inductive PlaylistCall where
  | me
  | create_playlist
  | add_tracks
deriving DecidableEq, Repr

/-- `spotify_api.py::create_playlist_with_tracks`.  Returns the outcome
(`.ok true`, or the raised error) together with the list of network calls
performed.  There is no validation of `track_uris` anywhere. -/
def create_playlist_with_tracks (env : PlaylistEnv) (track_uris : List String) :
    Except Err Bool × List PlaylistCall :=
  match env.headers with
  | none => (.error .auth, [])
  | some _ =>
    match env.user_id with
    | none => (.error .data, [.me])
    | some _ =>
      if env.create_status ≠ 201 then
        (.error (.spotify env.create_status), [.me, .create_playlist])
      else if env.add_status track_uris ≠ 201 then
        (.error (.spotify (env.add_status track_uris)),
         [.me, .create_playlist, .add_tracks])
      else
        (.ok true, [.me, .create_playlist, .add_tracks])

end spotify_api

/-- A playlist environment in which every call succeeds. -/
def envPlaylistOk : spotify_api.PlaylistEnv :=
  { headers := some "H", user_id := some "U", create_status := 201,
    add_status := fun _ => 201 }

/-- C8 counterexample: with the empty track-URI list and an environment
where every provider call succeeds, `create_playlist_with_tracks` performs
all three network calls (profile fetch, playlist creation, add-tracks) and
returns success — it neither raises a DataError nor stops before network
activity, contradicting the claim. -/
theorem c8_empty_uris_not_rejected :
    spotify_api.create_playlist_with_tracks envPlaylistOk [] =
      (.ok true, [.me, .create_playlist, .add_tracks]) :=
  rfl

/-- C8 (amended): `create_playlist_with_tracks` performs no validation of
the track-URI list: whenever auth headers and a user id are available, the
call with the empty list issues the profile fetch and the
playlist-creation POST, and its outcome is never a DataError. -/
theorem c8_empty_uris_proceeds (env : spotify_api.PlaylistEnv)
    (h : String) (u : String)
    (hh : env.headers = some h) (hu : env.user_id = some u) :
    spotify_api.PlaylistCall.me ∈
      (spotify_api.create_playlist_with_tracks env []).2 ∧
    spotify_api.PlaylistCall.create_playlist ∈
      (spotify_api.create_playlist_with_tracks env []).2 ∧
    (spotify_api.create_playlist_with_tracks env []).1 ≠
      Except.error spotify_api.Err.data := by
  unfold spotify_api.create_playlist_with_tracks
  rw [hh, hu]
  by_cases hc : env.create_status ≠ 201
  · simp [hc]
  · by_cases ha : env.add_status [] ≠ 201
    · simp [hc, ha]
    · simp [hc, ha]

/-- C8 witness: the amended behavior at the all-success environment. -/
theorem c8_empty_uris_proceeds_witness :
    spotify_api.PlaylistCall.me ∈
      (spotify_api.create_playlist_with_tracks envPlaylistOk []).2 ∧
    spotify_api.PlaylistCall.create_playlist ∈
      (spotify_api.create_playlist_with_tracks envPlaylistOk []).2 ∧
    (spotify_api.create_playlist_with_tracks envPlaylistOk []).1 ≠
      Except.error spotify_api.Err.data :=
  c8_empty_uris_proceeds envPlaylistOk "H" "U" rfl rfl

namespace app

/-- The outcome of one `get_recommendations([seed_track])` attempt inside
`app.py::get_recommendations_api`: a returned list (possibly empty — the
code treats an empty result as a plain non-success and tries again), an
exception whose message contains `429`, or any other exception. -/
inductive Outcome where
  | ok (recs : List String)
  | err429
  | errOther

/-- The attempt loop for one seed (`for attempt in range(max_retries)`,
`max_retries = 3`): a non-empty result contributes its first 4 tracks and
stops; an empty result falls through to the next attempt with no sleep; a
`429` exception before the last attempt sleeps `retry_delay` and doubles
it; any other exception (or a `429` on the last attempt) stops the seed.
Arguments: remaining attempts (fuel), current attempt index, current
`retry_delay`.  Returns (contribution, backoff sleeps, `retry_delay`
after, attempts made). -/
def attempt_seed (o : Nat → Outcome) : Nat → Nat → Nat →
    List String × List Nat × Nat × Nat
  | 0, _, delay => ([], [], delay, 0)
  | fuel + 1, attempt, delay =>
    match o attempt with
    | .ok recs =>
      if recs = [] then
        let r := attempt_seed o fuel (attempt + 1) delay
        (r.1, r.2.1, r.2.2.1, r.2.2.2 + 1)
      else
        (recs.take 4, [], delay, 1)
    | .err429 =>
      if fuel ≠ 0 then
        let r := attempt_seed o fuel (attempt + 1) (delay * 2)
        (r.1, delay :: r.2.1, r.2.2.1, r.2.2.2 + 1)
      else
        ([], [], delay, 1)
    | .errOther => ([], [], delay, 1)

/-- A sleep event of the orchestration: the fixed 2-second pacing sleep
before each seed after the first, or a rate-limit backoff sleep of the
recorded duration. -/
inductive Ev where
  | pace
  | backoff (n : Nat)
deriving DecidableEq, Repr

/-- The per-seed orchestration for every seed after the first: a pacing
sleep, then the attempt loop, threading `retry_delay` (which is never
reset between seeds).  Returns (all contributions, sleep events, final
`retry_delay`, attempts made per seed). -/
def run_seeds_rest (delay : Nat) : List (Nat → Outcome) →
    List String × List Ev × Nat × List Nat
  | [] => ([], [], delay, [])
  | o :: rest =>
    let r := attempt_seed o 3 0 delay
    let rs := run_seeds_rest r.2.2.1 rest
    (r.1 ++ rs.1, Ev.pace :: (r.2.1.map Ev.backoff ++ rs.2.1), rs.2.2.1,
     r.2.2.2 :: rs.2.2.2)

/-- The seed loop of `app.py::get_recommendations_api`: `retry_delay`
starts at 2 before the first seed and is threaded through all seeds; no
pacing sleep precedes the first seed. -/
def get_recommendations_api_loop : List (Nat → Outcome) →
    List String × List Ev × Nat × List Nat
  | [] => ([], [], 2, [])
  | o :: rest =>
    let r := attempt_seed o 3 0 2
    let rs := run_seeds_rest r.2.2.1 rest
    (r.1 ++ rs.1, r.2.1.map Ev.backoff ++ rs.2.1, rs.2.2.1,
     r.2.2.2 :: rs.2.2.2)

/-- The list of backoff-sleep durations in an event list. -/
def backoff_values (evs : List Ev) : List Nat :=
  evs.filterMap (fun e => match e with | Ev.backoff n => some n | Ev.pace => none)

/-- The sleep sequence `d, 2d, 4d, ...` of length `n` produced by
repeatedly doubling a delay that starts at `d`. -/
def doubling_from (d : Nat) : Nat → List Nat
  | 0 => []
  | n + 1 => d :: doubling_from (d * 2) n

end app

/-- The backoff sleeps of one seed's attempt loop double from the incoming
delay, the outgoing `retry_delay` is the incoming one doubled once per
backoff, and the number of attempts is bounded by the fuel. -/
lemma attempt_seed_backoff_spec (o : Nat → app.Outcome) (fuel att d : Nat) :
    (app.attempt_seed o fuel att d).2.1 =
      app.doubling_from d (app.attempt_seed o fuel att d).2.1.length ∧
    (app.attempt_seed o fuel att d).2.2.1 =
      d * 2 ^ (app.attempt_seed o fuel att d).2.1.length ∧
    (app.attempt_seed o fuel att d).2.2.2 ≤ fuel := by
  induction fuel generalizing att d with
  | zero => simp [app.attempt_seed, app.doubling_from]
  | succ n ih =>
    cases ho : o att with
    | ok recs =>
      by_cases hr : recs = []
      · simp only [app.attempt_seed, ho, hr, if_pos]
        exact ⟨(ih (att + 1) d).1, (ih (att + 1) d).2.1,
               Nat.succ_le_succ (ih (att + 1) d).2.2⟩
      · simp [app.attempt_seed, ho, hr, app.doubling_from]
    | err429 =>
      by_cases hn : n = 0
      · subst hn
        simp [app.attempt_seed, ho, app.doubling_from]
      · simp only [app.attempt_seed, ho]
        rw [if_pos hn]
        simp only [List.length_cons, app.doubling_from]
        refine ⟨?_, ?_, ?_⟩
        · exact congrArg (d :: ·) (ih (att + 1) (d * 2)).1
        · rw [(ih (att + 1) (d * 2)).2.1]
          ring
        · exact Nat.succ_le_succ (ih (att + 1) (d * 2)).2.2
    | errOther => simp [app.attempt_seed, ho, app.doubling_from]

/-- `backoff_values` distributes over append. -/
lemma backoff_values_append (xs ys : List app.Ev) :
    app.backoff_values (xs ++ ys) =
      app.backoff_values xs ++ app.backoff_values ys := by
  simp [app.backoff_values]

/-- A list of backoff events carries exactly its durations. -/
lemma backoff_values_map (bs : List Nat) :
    app.backoff_values (bs.map app.Ev.backoff) = bs := by
  induction bs with
  | nil => rfl
  | cons b bs ih => simp [app.backoff_values] at ih ⊢; exact ih

/-- A pacing event contributes no backoff value. -/
lemma backoff_values_pace (xs : List app.Ev) :
    app.backoff_values (app.Ev.pace :: xs) = app.backoff_values xs := by
  simp [app.backoff_values]

/-- Splitting a doubling sequence: after `n` doublings the tail continues
from `d * 2 ^ n`. -/
lemma doubling_from_append (d n m : Nat) :
    app.doubling_from d (n + m) =
      app.doubling_from d n ++ app.doubling_from (d * 2 ^ n) m := by
  induction n generalizing d with
  | zero => simp [app.doubling_from]
  | succ k ih =>
    rw [Nat.succ_add]
    simp only [app.doubling_from, List.cons_append]
    rw [ih (d * 2)]
    have : d * 2 * 2 ^ k = d * 2 ^ (k + 1) := by ring
    rw [this]

/-- Across the tail seeds, the backoff sleeps continue doubling from the
incoming delay and the final delay is the incoming one doubled once per
backoff. -/
lemma run_seeds_rest_backoffs (seeds : List (Nat → app.Outcome)) (d : Nat) :
    ∃ k, app.backoff_values (app.run_seeds_rest d seeds).2.1 =
           app.doubling_from d k ∧
         (app.run_seeds_rest d seeds).2.2.1 = d * 2 ^ k := by
  induction seeds generalizing d with
  | nil => exact ⟨0, by simp [app.run_seeds_rest, app.backoff_values,
      app.doubling_from]⟩
  | cons o rest ih =>
    obtain ⟨k, hbv, hd⟩ :=
      ih (app.attempt_seed o 3 0 d).2.2.1
    have hseed := attempt_seed_backoff_spec o 3 0 d
    refine ⟨(app.attempt_seed o 3 0 d).2.1.length + k, ?_, ?_⟩
    · simp only [app.run_seeds_rest, backoff_values_pace, backoff_values_append,
        backoff_values_map]
      rw [doubling_from_append, ← hseed.1, hbv, hseed.2.1]
    · simp only [app.run_seeds_rest]
      rw [hd, hseed.2.1, pow_add, mul_assoc]

/-- Every seed in the tail is processed (one attempts entry per seed) and
attempted at most 3 times. -/
lemma run_seeds_rest_atts (seeds : List (Nat → app.Outcome)) (d : Nat) :
    (app.run_seeds_rest d seeds).2.2.2.length = seeds.length ∧
    ∀ a ∈ (app.run_seeds_rest d seeds).2.2.2, a ≤ 3 := by
  induction seeds generalizing d with
  | nil => simp [app.run_seeds_rest]
  | cons o rest ih =>
    simp only [app.run_seeds_rest, List.length_cons, List.mem_cons]
    constructor
    · rw [(ih _).1]
    · intro a ha
      rcases ha with ha | ha
      · exact ha ▸ (attempt_seed_backoff_spec o 3 0 d).2.2
      · exact (ih _).2 a ha

/-- Exactly one pacing sleep per tail seed. -/
lemma run_seeds_rest_pace (seeds : List (Nat → app.Outcome)) (d : Nat) :
    (app.run_seeds_rest d seeds).2.1.count app.Ev.pace = seeds.length := by
  induction seeds generalizing d with
  | nil => simp [app.run_seeds_rest]
  | cons o rest ih =>
    simp only [app.run_seeds_rest, List.count_cons, List.count_append]
    rw [ih]
    have hmap : ((app.attempt_seed o 3 0 d).2.1.map app.Ev.backoff).count
        app.Ev.pace = 0 := by
      rw [List.count_eq_zero]
      intro h
      rcases List.mem_map.mp h with ⟨b, _, hb⟩
      exact app.Ev.noConfusion hb
    rw [hmap]
    simp

/-- First seed of the C5 counterexample: 429 on attempts 0 and 1, success
on attempt 2. -/
def oSeed1 : Nat → app.Outcome := fun n =>
  match n with
  | 0 => .err429
  | 1 => .err429
  | _ => .ok ["r1"]

/-- Second seed of the C5 counterexample: 429 on attempt 0, success on
attempt 1. -/
def oSeed2 : Nat → app.Outcome := fun n =>
  match n with
  | 0 => .err429
  | _ => .ok ["r2"]

/-- C5 counterexample: `retry_delay` is initialized once before the seed
loop and never reset, so after the first seed's two backoffs (2 s then
4 s) the second seed's single 429 retry waits 8 seconds — not the 2
seconds the claim's per-seed "exponential backoff starting at 2 seconds"
entails.  Both seeds are attempted at most 3 times and the pacing sleep
separates them. -/
theorem c5_delay_not_reset_per_seed :
    app.get_recommendations_api_loop [oSeed1, oSeed2] =
      (["r1", "r2"],
       [app.Ev.backoff 2, app.Ev.backoff 4, app.Ev.pace, app.Ev.backoff 8],
       16, [3, 2]) :=
  rfl

/-- C5 (amended): in `get_recommendations_api`'s seed loop, every seed is
processed (one attempts-entry per seed) and attempted at most 3 times; a
pacing sleep occurs exactly once per seed after the first; the backoff
sleeps, counted across the whole call, form the doubling sequence
2, 4, 8, ... (the delay is never reset between seeds), with the final
`retry_delay` equal to 2 doubled once per backoff; backoff sleeps happen
only on 429 (a non-429 exception on the first attempt ends that seed at
once, with no sleep, no contribution, and the delay unchanged). -/
theorem c5_retry_orchestration (seeds : List (Nat → app.Outcome)) :
    (∃ k, app.backoff_values (app.get_recommendations_api_loop seeds).2.1 =
            app.doubling_from 2 k ∧
          (app.get_recommendations_api_loop seeds).2.2.1 = 2 * 2 ^ k) ∧
    (app.get_recommendations_api_loop seeds).2.1.count app.Ev.pace =
      seeds.length - 1 ∧
    (app.get_recommendations_api_loop seeds).2.2.2.length = seeds.length ∧
    (∀ a ∈ (app.get_recommendations_api_loop seeds).2.2.2, a ≤ 3) ∧
    (∀ (o : Nat → app.Outcome) (d : Nat), o 0 = app.Outcome.errOther →
      app.attempt_seed o 3 0 d = ([], [], d, 1)) := by
  have hlast : ∀ (o : Nat → app.Outcome) (d : Nat),
      o 0 = app.Outcome.errOther → app.attempt_seed o 3 0 d = ([], [], d, 1) := by
    intro o d ho
    simp [app.attempt_seed, ho]
  match seeds with
  | [] =>
    exact ⟨⟨0, by simp [app.get_recommendations_api_loop, app.backoff_values,
      app.doubling_from]⟩,
      by simp [app.get_recommendations_api_loop],
      by simp [app.get_recommendations_api_loop],
      by simp [app.get_recommendations_api_loop], hlast⟩
  | o :: rest =>
    have hseed := attempt_seed_backoff_spec o 3 0 2
    obtain ⟨k, hbv, hd⟩ :=
      run_seeds_rest_backoffs rest (app.attempt_seed o 3 0 2).2.2.1
    refine ⟨⟨(app.attempt_seed o 3 0 2).2.1.length + k, ?_, ?_⟩, ?_, ?_, ?_, hlast⟩
    · simp only [app.get_recommendations_api_loop, backoff_values_append,
        backoff_values_map]
      rw [doubling_from_append, ← hseed.1, hbv, hseed.2.1]
    · simp only [app.get_recommendations_api_loop]
      rw [hd, hseed.2.1, pow_add, mul_assoc]
    · simp only [app.get_recommendations_api_loop, List.count_append]
      have hmap : ((app.attempt_seed o 3 0 2).2.1.map app.Ev.backoff).count
          app.Ev.pace = 0 := by
        rw [List.count_eq_zero]
        intro h
        rcases List.mem_map.mp h with ⟨b, _, hb⟩
        exact app.Ev.noConfusion hb
      rw [hmap, run_seeds_rest_pace]
      simp
    · simp only [app.get_recommendations_api_loop, List.length_cons]
      rw [(run_seeds_rest_atts rest _).1]
    · intro a ha
      simp only [app.get_recommendations_api_loop, List.mem_cons] at ha
      rcases ha with ha | ha
      · exact ha ▸ hseed.2.2
      · exact (run_seeds_rest_atts rest _).2 a ha

/-- A seed whose first attempt raises a non-429 exception. -/
def oOther : Nat → app.Outcome := fun _ => .errOther

/-- C5 witness: the amended orchestration properties at the concrete
two-seed counterexample run, and the immediate abort of a seed whose
first attempt fails with a non-429 error. -/
theorem c5_retry_orchestration_witness :
    (∃ k, app.backoff_values
            (app.get_recommendations_api_loop [oSeed1, oSeed2]).2.1 =
            app.doubling_from 2 k ∧
          (app.get_recommendations_api_loop [oSeed1, oSeed2]).2.2.1 = 2 * 2 ^ k) ∧
    (app.get_recommendations_api_loop [oSeed1, oSeed2]).2.1.count app.Ev.pace
      = [oSeed1, oSeed2].length - 1 ∧
    (app.get_recommendations_api_loop [oSeed1, oSeed2]).2.2.2.length
      = [oSeed1, oSeed2].length ∧
    (∀ a ∈ (app.get_recommendations_api_loop [oSeed1, oSeed2]).2.2.2, a ≤ 3) ∧
    app.attempt_seed oOther 3 0 2 = ([], [], 2, 1) :=
  ⟨(c5_retry_orchestration [oSeed1, oSeed2]).1,
   (c5_retry_orchestration [oSeed1, oSeed2]).2.1,
   (c5_retry_orchestration [oSeed1, oSeed2]).2.2.1,
   (c5_retry_orchestration [oSeed1, oSeed2]).2.2.2.1,
   (c5_retry_orchestration [oSeed1, oSeed2]).2.2.2.2 oOther 2 rfl⟩

namespace spotify

/-- The fetch branch of `spotify.py::get_top_tracks`: the GET to
`/me/top/tracks`; on non-200 return `[]`, on 200 return the items and
store them (with the current time) in the session cache.  The final
component counts top-tracks GETs. -/
def fetch_top_tracks (now fetch_status : Nat) (fetch_items : List Track)
    (s : Session) : List Track × Session × Nat :=
  if fetch_status ≠ 200 then
    ([], s, 1)
  else
    (fetch_items, { s with cached_top_tracks := some fetch_items,
                           cached_top_tracks_time := some now }, 1)

/-- `spotify.py::get_top_tracks`: first call `get_headers` (returning `[]`
on failure), then return the session cache when both cache keys are
present and the cached value is less than 3600 seconds old, and otherwise
fetch.  The final component counts GETs to the top-tracks endpoint. -/
def get_top_tracks (now : Nat) (resp : RefreshResp) (fetch_status : Nat)
    (fetch_items : List Track) (s : Session) : List Track × Session × Nat :=
  match get_headers now resp s with
  | (none, s1, _) => ([], s1, 0)
  | (some _, s1, _) =>
    match s1.cached_top_tracks, s1.cached_top_tracks_time with
    | some cached, some t =>
      if now - t < 3600 then
        (cached, s1, 0)
      else
        fetch_top_tracks now fetch_status fetch_items s1
    | _, _ => fetch_top_tracks now fetch_status fetch_items s1

end spotify

/-- `spotify.get_headers` only ever touches the three token keys: the two
cache keys survive it unchanged. -/
lemma sp_get_headers_preserves_cache (now : Nat) (resp : RefreshResp)
    (s : Session) :
    (spotify.get_headers now resp s).2.1.cached_top_tracks =
      s.cached_top_tracks ∧
    (spotify.get_headers now resp s).2.1.cached_top_tracks_time =
      s.cached_top_tracks_time := by
  unfold spotify.get_headers spotify.refresh_spotify_token
  cases htok : s.spotify_token with
  | none => exact ⟨rfl, rfl⟩
  | some tok =>
    by_cases hex : spotify.is_token_expired now s
    · rw [if_pos hex]
      cases hrt : s.spotify_refresh_token with
      | none => simp [spotify.clear_spotify_tokens]
      | some rt =>
        by_cases hst : resp.status ≠ 200
        · rw [if_pos hst]
          simp [spotify.clear_spotify_tokens]
        · rw [if_neg hst]
          simp
    · rw [if_neg hex]
      exact ⟨rfl, rfl⟩

/-- A session whose cache keys hold a recent successful fetch but whose
access token has expired while the refresh token is still present. -/
def sessCachedExpired : Session :=
  { sessExpired with cached_top_tracks := some [Track.mk "t1"],
                     cached_top_tracks_time := some 100 }

/-- C10 counterexample: a session that cached a successful top-tracks
fetch 100 seconds ago (well within the hour) but whose token has expired
and whose refresh is rejected: `get_top_tracks` returns `[]`, not the
cached list — the cache is only consulted after `get_headers`
succeeds, so the claim's unconditional "returns exactly the cached list"
fails. -/
theorem c10_cache_skipped_when_auth_fails :
    (spotify.get_top_tracks 200 resp400 200 [] sessCachedExpired).1 = [] ∧
    sessCachedExpired.cached_top_tracks = some [Track.mk "t1"] ∧
    sessCachedExpired.cached_top_tracks_time = some 100 ∧
    200 - 100 < 3600 := by
  decide

/-- C10 (amended): provided `get_headers` succeeds, a call made less than
3600 seconds after a successful fetch cached in the same session returns
exactly the cached list and performs no HTTP request to the top-tracks
endpoint (the session is whatever `get_headers` left, so a token refresh
may still have happened); when `get_headers` fails the function returns
`[]` without consulting the cache. -/
theorem c10_fresh_cache_hit (now : Nat) (resp : RefreshResp)
    (fetch_status : Nat) (fetch_items : List Track) (s : Session)
    (hdr : String) (cached : List Track) (t : Nat)
    (hh : (spotify.get_headers now resp s).1 = some hdr)
    (hc : s.cached_top_tracks = some cached)
    (ht : s.cached_top_tracks_time = some t)
    (hfresh : now - t < 3600) :
    spotify.get_top_tracks now resp fetch_status fetch_items s =
      (cached, (spotify.get_headers now resp s).2.1, 0) := by
  have hpc := sp_get_headers_preserves_cache now resp s
  unfold spotify.get_top_tracks
  rcases hg : spotify.get_headers now resp s with ⟨h1, s1, n1⟩
  rw [hg] at hh hpc
  simp only at hh hpc
  rw [hh]
  simp only
  rw [hpc.1, hpc.2, hc, ht]
  simp only [if_pos hfresh]

/-- A session with a valid (unexpired) token and a fresh cache. -/
def sessCachedValid : Session :=
  { spotify_token := some "TOK", spotify_refresh_token := none,
    spotify_token_expires_in := some 1000,
    cached_top_tracks := some [Track.mk "t1"],
    cached_top_tracks_time := some 100, recommended_tracks := none }

/-- C10 witness: the cache hit at a concrete valid-token session 100
seconds after the cached fetch, even though the network fetch would
return a 500. -/
theorem c10_fresh_cache_hit_witness :
    spotify.get_top_tracks 200 resp400 500 [] sessCachedValid =
      ([Track.mk "t1"], (spotify.get_headers 200 resp400 sessCachedValid).2.1, 0) :=
  c10_fresh_cache_hit 200 resp400 500 [] sessCachedValid "Bearer TOK"
    [Track.mk "t1"] 100 rfl rfl rfl (by decide)
